import Mathlib

/-!
Verification of the interviewai repository: a browser coaching tool whose
server side is a single relay endpoint (src/app/api/generate-prompt/route.ts)
and whose client side is a recording/transcription session component
(src/unnamed/part_000, function RecordingPage).

The relay endpoint is embedded as a pure function from the outcome of body
parsing and a downstream chat-completion oracle to an HTTP response together
with the list of downstream requests it issued.  The client component is
embedded as explicit state passing over a session-state record, with React
closure capture made explicit where it matters (the useEffect cleanup).
-/

namespace InterviewAI

/-! ## Relay endpoint: src/app/api/generate-prompt/route.ts -/

/-- Parsed JSON body of a relay request, as destructured from
request.json() on line 10 of route.ts.  A field is none when it is absent
from the JSON object. -/
structure RelayBody where
  transcription : Option String
  topic : Option String
  deriving DecidableEq

/-- JavaScript falsiness of an (optional) string field, as tested by
`!transcription || !topic` on line 12: an absent field (undefined) and the
empty string are falsy; every non-empty string is truthy. -/
def isFalsy : Option String → Bool
  | none => true
  | some s => s.isEmpty

/-- One message of the chat-completion request (role/content pair). -/
structure ChatRequestMessage where
  role : String
  content : String
  deriving DecidableEq

/-- The argument object of `openai.chat.completions.create` (lines 21-32). -/
structure ChatRequest where
  model : String
  messages : List ChatRequestMessage
  max_tokens : Nat
  deriving DecidableEq

/-- The message inside one completion choice; `content` is nullable in the
OpenAI API, hence an option. -/
structure ChatCompletionMessage where
  content : Option String
  deriving DecidableEq

/-- One choice of the completion; the code accesses `.message` through the
optional-chaining operator, so it is modelled as optional. -/
structure ChatCompletionChoice where
  message : Option ChatCompletionMessage
  deriving DecidableEq

/-- Result object of a successful `openai.chat.completions.create` call. -/
structure ChatCompletion where
  choices : List ChatCompletionChoice
  deriving DecidableEq

/-- Body of an HTTP response produced by the endpoint: a JSON object with a
single prompt field, or one with a single error field. -/
inductive ResponseBody where
  | promptBody (prompt : String)
  | errorBody (error : String)
  deriving DecidableEq

/-- An HTTP response: status code plus JSON body.  `NextResponse.json(b)`
without options is status 200. -/
structure HttpResponse where
  status : Nat
  body : ResponseBody
  deriving DecidableEq

/-- The user instruction built on line 19 of route.ts: a template literal
embedding `transcription` and `topic` verbatim (template literals perform
plain string concatenation, no escaping). -/
def buildPrompt (transcription topic : String) : String :=
  "Based on the user's speech transcription: \"" ++ transcription ++
  "\", and the topic: \"" ++ topic ++
  "\", generate a helpful, relevant prompt for the user to continue their response or improve their communication. Keep it concise and actionable."

/-- The fixed system instruction string (lines 26-27 of route.ts). -/
def systemInstruction : String :=
  "You are an AI coach helping users improve their communication skills through video recording sessions."

/-- The downstream request object passed to `openai.chat.completions.create`
(lines 21-32 of route.ts): fixed model, system message, the built user
instruction, and a 100-token completion cap. -/
def relayRequest (transcription topic : String) : ChatRequest :=
  { model := "gpt-3.5-turbo"
    messages :=
      [ { role := "system", content := systemInstruction }
      , { role := "user", content := buildPrompt transcription topic } ]
    max_tokens := 100 }

/-- The optional-chain `completion.choices[0]?.message?.content` of line 35. -/
def contentOf (c : ChatCompletion) : Option String :=
  (c.choices.head?.bind fun ch => ch.message).bind fun m => m.content

/-- JavaScript String.prototype.trim as used on line 35: strips leading and
trailing whitespace characters and returns the rest unchanged. -/
def jsTrim (s : String) : String :=
  ⟨((s.data.dropWhile Char.isWhitespace).reverse.dropWhile Char.isWhitespace).reverse⟩

/-- Line 34-36 of route.ts: `completion.choices[0]?.message?.content?.trim()
|| "Continue speaking naturally."`.  The `||` falls through both when the
optional chain is undefined and when the trimmed string is empty (falsy). -/
def aiPrompt (c : ChatCompletion) : String :=
  match contentOf c with
  | none => "Continue speaking naturally."
  | some s => if (jsTrim s).isEmpty then "Continue speaking naturally." else jsTrim s

/-- The POST handler of route.ts (lines 8-46), embedded as a pure function.
`parsed` is the outcome of `await request.json()` (an exception carries a
message string); `service` is the downstream chat-completion call, which
either returns a completion or throws (message string).  The result pairs the
HTTP response with the list of downstream requests issued, in order.  Both
the body-parse exception and the downstream exception land in the single
catch block (lines 39-45), which returns the generic 500 response. -/
def POST (parsed : Except String RelayBody)
    (service : ChatRequest → Except String ChatCompletion) :
    HttpResponse × List ChatRequest :=
  match parsed with
  | .error _ =>
      ({ status := 500, body := .errorBody "Failed to generate prompt" }, [])
  | .ok b =>
      if isFalsy b.transcription || isFalsy b.topic then
        ({ status := 400, body := .errorBody "Missing transcription or topic" }, [])
      else
        let req := relayRequest (b.transcription.getD "") (b.topic.getD "")
        match service req with
        | .error _ =>
            ({ status := 500, body := .errorBody "Failed to generate prompt" }, [req])
        | .ok completion =>
            ({ status := 200, body := .promptBody (aiPrompt completion) }, [req])

/-- The fallback string is not empty, and a trimmed non-empty string is not
empty, so the computed prompt is never the empty string. -/
theorem aiPrompt_ne_empty (c : ChatCompletion) : aiPrompt c ≠ "" := by
  unfold aiPrompt
  cases h : contentOf c with
  | none => decide
  | some s =>
      by_cases he : (jsTrim s).isEmpty
      · simp [he]
      · simpa [he] using fun hs => he (by simp [hs, String.isEmpty_iff])

/-! ## Claims about the relay -/

/-- C1: for every request whose parsed body has an absent or empty
transcription field or an absent or empty topic field, POST returns status
400 with a body that is exactly the error field "Missing transcription or
topic", and issues no downstream request. -/
theorem relay_missing_field_400_no_call (b : RelayBody)
    (service : ChatRequest → Except String ChatCompletion)
    (h : isFalsy b.transcription = true ∨ isFalsy b.topic = true) :
    POST (.ok b) service =
      ({ status := 400, body := .errorBody "Missing transcription or topic" }, []) := by
  unfold POST
  rcases h with h | h <;> simp [h]

/-- Witness for C1: a body with an absent transcription and the topic
"debate" yields the 400 response and an empty downstream-request list. -/
theorem relay_missing_field_400_no_call_witness :
    POST (.ok { transcription := none, topic := some "debate" })
      (fun _ => .error "unreachable") =
      ({ status := 400, body := .errorBody "Missing transcription or topic" }, []) :=
  relay_missing_field_400_no_call _ _ (Or.inl (by decide))

/-- C2: for every valid (non-empty) transcription and topic, if the
downstream call throws for any reason, POST returns status 500 with a body
that is exactly the error field "Failed to generate prompt"; the response is
this fixed constant, independent of the thrown error, so nothing derived
from the underlying error reaches the body. -/
theorem relay_downstream_failure_500_generic (t u e : String)
    (service : ChatRequest → Except String ChatCompletion)
    (ht : t ≠ "") (hu : u ≠ "")
    (hs : service (relayRequest t u) = .error e) :
    (POST (.ok { transcription := some t, topic := some u }) service).1 =
      { status := 500, body := .errorBody "Failed to generate prompt" } := by
  unfold POST
  simp [isFalsy, String.isEmpty_iff, ht, hu, hs]

/-- Witness for C2: a downstream call throwing "ECONNRESET: secret detail"
on valid input yields exactly the generic 500 body. -/
theorem relay_downstream_failure_500_generic_witness :
    (POST (.ok { transcription := some "hello", topic := some "debate" })
      (fun _ => .error "ECONNRESET: secret detail")).1 =
      { status := 500, body := .errorBody "Failed to generate prompt" } :=
  relay_downstream_failure_500_generic "hello" "debate" "ECONNRESET: secret detail" _
    (by decide) (by decide) rfl

/-- C3: for every valid (non-empty) transcription and topic, when the
downstream call succeeds, POST returns status 200 whose prompt field is
non-empty and equals the completion content with surrounding whitespace
trimmed, or the literal "Continue speaking naturally." when the content is
absent or trims to empty. -/
theorem relay_success_200_trimmed_or_fallback (t u : String) (c : ChatCompletion)
    (service : ChatRequest → Except String ChatCompletion)
    (ht : t ≠ "") (hu : u ≠ "")
    (hs : service (relayRequest t u) = .ok c) :
    (POST (.ok { transcription := some t, topic := some u }) service).1 =
      { status := 200, body := .promptBody (aiPrompt c) } ∧
    aiPrompt c ≠ "" ∧
    ((∃ s, contentOf c = some s ∧ jsTrim s ≠ "" ∧ aiPrompt c = jsTrim s) ∨
     ((contentOf c = none ∨ ∃ s, contentOf c = some s ∧ jsTrim s = "") ∧
      aiPrompt c = "Continue speaking naturally.")) := by
  refine ⟨?_, aiPrompt_ne_empty c, ?_⟩
  · unfold POST
    simp [isFalsy, String.isEmpty_iff, ht, hu, hs]
  · unfold aiPrompt
    cases h : contentOf c with
    | none => exact Or.inr ⟨Or.inl rfl, rfl⟩
    | some s =>
        by_cases he : (jsTrim s).isEmpty
        · exact Or.inr ⟨Or.inr ⟨s, rfl, (String.isEmpty_iff _).mp he⟩, by simp [he]⟩
        · exact Or.inl ⟨s, rfl, fun hq => he (by simp [hq, String.isEmpty_iff]), by simp [he]⟩

/-- Witness for C3: on valid input with a completion whose content is
"  Be concise.  ", the relay responds 200 with the trimmed prompt. -/
theorem relay_success_200_trimmed_or_fallback_witness :
    (POST (.ok { transcription := some "hello", topic := some "debate" })
      (fun _ => .ok { choices := [{ message := some { content := some "  Be concise.  " } }] })).1 =
      { status := 200,
        body := .promptBody (aiPrompt { choices := [{ message := some { content := some "  Be concise.  " } }] }) } ∧
    aiPrompt { choices := [{ message := some { content := some "  Be concise.  " } }] } = "Be concise." :=
  ⟨(relay_success_200_trimmed_or_fallback "hello" "debate" _ _
      (by decide) (by decide) rfl).1,
   by decide⟩

/-- C9: for every valid input, POST issues exactly one downstream request,
with the fixed model identifier "gpt-3.5-turbo", the fixed system
instruction, the user instruction embedding transcription and topic verbatim
(plain concatenation, no escaping) into the fixed template, and a completion
cap of 100 tokens. -/
theorem relay_single_downstream_call (t u : String)
    (service : ChatRequest → Except String ChatCompletion)
    (ht : t ≠ "") (hu : u ≠ "") :
    (POST (.ok { transcription := some t, topic := some u }) service).2 =
      [relayRequest t u] ∧
    relayRequest t u =
      { model := "gpt-3.5-turbo"
        messages :=
          [ { role := "system", content := systemInstruction }
          , { role := "user", content := buildPrompt t u } ]
        max_tokens := 100 } ∧
    buildPrompt t u =
      "Based on the user's speech transcription: \"" ++ t ++
      "\", and the topic: \"" ++ u ++
      "\", generate a helpful, relevant prompt for the user to continue their response or improve their communication. Keep it concise and actionable." := by
  refine ⟨?_, rfl, rfl⟩
  unfold POST
  cases h : service (relayRequest t u) <;>
    simp [isFalsy, String.isEmpty_iff, ht, hu, h]

/-- Witness for C9: the single downstream request for the input pair
("I have five years of experience", "job-interview"). -/
theorem relay_single_downstream_call_witness :
    (POST (.ok { transcription := some "I have five years of experience",
                 topic := some "job-interview" })
      (fun _ => .error "service down")).2 =
      [relayRequest "I have five years of experience" "job-interview"] :=
  (relay_single_downstream_call "I have five years of experience" "job-interview"
    (fun _ => .error "service down") (by decide) (by decide)).1

/-- C10: for every request whose body is not parseable as JSON, POST returns
status 500 with the generic error body (the parse failure is caught by the
same catch block as downstream failures), not the 400 validation response,
and no downstream request is issued. -/
theorem relay_unparseable_body_500 (e : String)
    (service : ChatRequest → Except String ChatCompletion) :
    POST (.error e) service =
      ({ status := 500, body := .errorBody "Failed to generate prompt" }, []) := rfl

/-! ## Client session component: src/unnamed/part_000, RecordingPage -/

/-- One track of a media stream; the identifier distinguishes tracks. -/
structure MediaTrack where
  id : Nat
  deriving DecidableEq

/-- A media stream, by its list of tracks (what getTracks returns). -/
structure MediaStream where
  tracks : List MediaTrack
  deriving DecidableEq

/-- A speech recognizer as configured in startRecording (lines 236-238):
continuous mode, interim results disabled, plus whether start() was called
and stop() not yet called. -/
structure Recognizer where
  continuous : Bool
  interimResults : Bool
  active : Bool
  deriving DecidableEq

/-- A MediaRecorder: the stream it is bound to and whether it is running. -/
structure Recorder where
  boundStream : MediaStream
  active : Bool
  deriving DecidableEq

/-- The React state of RecordingPage: one field per useState hook, plus the
recognitionRef ref (lines 177-189).  Recorded chunks are byte lists (Blobs). -/
structure ClientState where
  isRecording : Bool
  currentPrompt : String
  stream : Option MediaStream
  mediaRecorder : Option Recorder
  recordedChunks : List (List Nat)
  transcription : String
  recognitionRef : Option Recognizer
  deriving DecidableEq

/-- The state at the first render: the useState initializers of lines
177-189 (recording off, the click-start prompt, no stream, no recorder, no
chunks, empty transcription) and an empty recognitionRef. -/
def initialClientState : ClientState :=
  { isRecording := false
    currentPrompt := "Click start to begin your session"
    stream := none
    mediaRecorder := none
    recordedChunks := []
    transcription := ""
    recognitionRef := none }

/-- Resolution of getUserMedia inside the mount effect (lines 195-206):
setStream stores the acquired stream. -/
def mediaAcquired (s : ClientState) (ms : MediaStream) : ClientState :=
  { s with stream := some ms }

/-- The value of the `stream` binding that the useEffect cleanup closure
captures.  The effect has an empty dependency array (line 213), so it runs
exactly once, during the first render, where `stream` still holds its
useState initializer; the cleanup returned there closes over that value.
Later setStream calls re-render with a fresh binding and never re-run the
effect, so the closure keeps the first-render value. -/
def streamCapturedByCleanup : Option MediaStream := initialClientState.stream

/-- The unmount cleanup body (line 211): `if (stream)
stream.getTracks().forEach((track) => track.stop())` evaluated on the
captured binding; the result is the list of tracks on which stop() is
called. -/
def cleanupStoppedTracks : Option MediaStream → List MediaTrack
  | none => []
  | some ms => ms.tracks

/-- The tracks actually stopped when the component unmounts. -/
def unmountStoppedTracks : List MediaTrack :=
  cleanupStoppedTracks streamCapturedByCleanup

/-- The ondataavailable handler (lines 223-227): a chunk is appended exactly
when its size is positive. -/
def ondataavailable (s : ClientState) (data : List Nat) : ClientState :=
  if data.length > 0 then
    { s with recordedChunks := s.recordedChunks ++ [data] }
  else s

/-- The startRecording handler (lines 216-268).  With no stream it returns
immediately.  Otherwise it creates and starts a recorder bound to the
stream, clears the chunk list, sets the recording flag, clears the
transcription, and sets the start-speaking prompt; then, if the
webkitSpeechRecognition capability is present, it creates, configures and
starts a recognizer and stores it in recognitionRef, else it overwrites the
prompt with the not-supported message. -/
def startRecording (speechRecognitionAvailable : Bool) (s : ClientState) :
    ClientState :=
  match s.stream with
  | none => s
  | some ms =>
      let s1 := { s with
        mediaRecorder := some { boundStream := ms, active := true }
        recordedChunks := []
        isRecording := true
        transcription := ""
        currentPrompt := "Start speaking to receive AI prompts." }
      if speechRecognitionAvailable then
        { s1 with recognitionRef := some { continuous := true, interimResults := false, active := true } }
      else
        { s1 with currentPrompt := "Speech recognition not supported in this browser." }

/-- Body of one fetch to /api/generate-prompt issued by the onresult handler
(lines 249-252). -/
structure FetchBody where
  transcription : String
  topic : String
  deriving DecidableEq

/-- One recognizer result as read by the handler: the isFinal flag and the
transcript of its first alternative (`event.results[i][0].transcript`). -/
structure SpeechResult where
  isFinal : Bool
  transcript : String
  deriving DecidableEq

/-- A recognizer result event: the starting index and the result list. -/
structure SpeechEvent where
  resultIndex : Nat
  results : List SpeechResult
  deriving DecidableEq

/-- The loop body of onresult over the results from resultIndex on (lines
241-260): each final result appends its transcript to the accumulated
transcription and issues one fetch carrying that single transcript and the
session's topicId; non-final results are skipped.  Returns the final
accumulated transcription and the fetches issued, in order. -/
def processResults (topicId : String) :
    List SpeechResult → String → String × List FetchBody
  | [], acc => (acc, [])
  | r :: rs, acc =>
      if r.isFinal then
        let res := processResults topicId rs (acc ++ r.transcript)
        (res.1, { transcription := r.transcript, topic := topicId } :: res.2)
      else
        processResults topicId rs acc

/-- The onresult handler (lines 240-261): iterate from event.resultIndex to
the end of event.results. -/
def onresult (topicId : String) (ev : SpeechEvent) (acc : String) :
    String × List FetchBody :=
  processResults topicId (ev.results.drop ev.resultIndex) acc

/-- The fetch response callback (lines 255-257): `if (data.prompt)
setCurrentPrompt(data.prompt)`, i.e. the displayed prompt is replaced
exactly when the parsed body has a truthy prompt field. -/
def handleRelayData (promptField : Option String) (currentPrompt : String) :
    String :=
  match promptField with
  | none => currentPrompt
  | some p => if p.isEmpty then currentPrompt else p

/-- The prompt field of a relay response body, as seen by the client after
res.json(). -/
def promptFieldOf : ResponseBody → Option String
  | .promptBody p => some p
  | .errorBody _ => none

/-- Outcome of the stopRecording handler: the new state, the download it
triggered (if any), and whether the temporary object URL was revoked. -/
structure StopOutcome where
  state : ClientState
  download : Option (List Nat × String × String)
  objectUrlRevoked : Bool
  deriving DecidableEq

/-- The stopRecording handler (lines 271-287): stops the recorder and the
recognizer when present, clears the recording flag, sets the stopped
prompt; then, only if the chunk list is non-empty, builds a Blob that is
the concatenation of all chunks in order with type "video/webm", triggers a
download of it under the fixed name "recording.webm", and revokes the
object URL. -/
def stopRecording (s : ClientState) : StopOutcome :=
  let s1 := { s with
    mediaRecorder := s.mediaRecorder.map fun r => { r with active := false }
    recognitionRef := s.recognitionRef.map fun r => { r with active := false }
    isRecording := false
    currentPrompt := "Recording stopped. Review your performance!" }
  if s.recordedChunks.length > 0 then
    { state := s1
      download := some (s.recordedChunks.flatten, "video/webm", "recording.webm")
      objectUrlRevoked := true }
  else
    { state := s1, download := none, objectUrlRevoked := false }

/-! ## Claims about the client session component -/

/-- Every prompt field the relay endpoint can emit is non-empty: the 400
and 500 bodies have no prompt field, and the 200 body carries the computed
prompt, which is never empty. -/
theorem POST_prompt_ne_empty (parsed : Except String RelayBody)
    (service : ChatRequest → Except String ChatCompletion) (p : String)
    (hp : promptFieldOf ((POST parsed service).1).body = some p) : p ≠ "" := by
  rcases parsed with e | b
  · simp [POST, promptFieldOf] at hp
  · simp only [POST] at hp
    by_cases hc : (isFalsy b.transcription || isFalsy b.topic) = true
    · rw [if_pos hc] at hp
      simp [promptFieldOf] at hp
    · rw [if_neg hc] at hp
      cases hs : service (relayRequest (b.transcription.getD "") (b.topic.getD "")) with
      | error e => simp [hs, promptFieldOf] at hp
      | ok c =>
          simp only [hs, promptFieldOf] at hp
          rw [Option.some_inj] at hp
          exact hp ▸ aiPrompt_ne_empty c

/-- Unfolding of the onresult loop: starting from an accumulated
transcription, the loop appends the transcript of each final result in
order and emits one fetch body per final result, in order. -/
theorem processResults_eq (topicId : String) (rs : List SpeechResult) (acc : String) :
    processResults topicId rs acc =
      ((rs.filter fun r => r.isFinal).foldl (fun a r => a ++ r.transcript) acc,
       (rs.filter fun r => r.isFinal).map
         fun r => ({ transcription := r.transcript, topic := topicId } : FetchBody)) := by
  induction rs generalizing acc with
  | nil => simp [processResults]
  | cons r rs ih =>
      by_cases h : r.isFinal <;> simp [processResults, h, ih]

/-- C4 (evidence of the code bug): after the component mounts and a stream
with one track is acquired, unmounting stops no track at all, contradicting
the claim that every track of the acquired stream is stopped.  The useEffect
cleanup closes over the `stream` binding of the first render, which is still
the useState initializer null, because the effect's dependency array is
empty; the acquired stream is only stored by a later setStream and never
reaches the closure. -/
theorem unmount_stops_no_tracks :
    (mediaAcquired initialClientState { tracks := [{ id := 0 }] }).stream =
      some { tracks := [{ id := 0 }] } ∧
    unmountStoppedTracks = [] :=
  ⟨rfl, rfl⟩

/-- C5: the onresult handler processes exactly the results from the event's
resultIndex on that are final; in order, each appends its transcript to the
accumulated transcription and issues exactly one fetch carrying that single
transcript and the session's topic identifier; and for every response the
relay can produce whose body has a prompt field, the client's response
callback replaces the displayed prompt with that field (relay prompt fields
are always non-empty, hence truthy). -/
theorem onresult_final_results_and_calls (topicId acc : String) (ev : SpeechEvent) :
    (onresult topicId ev acc).1 =
      ((ev.results.drop ev.resultIndex).filter fun r => r.isFinal).foldl
        (fun a r => a ++ r.transcript) acc ∧
    (onresult topicId ev acc).2 =
      ((ev.results.drop ev.resultIndex).filter fun r => r.isFinal).map
        (fun r => ({ transcription := r.transcript, topic := topicId } : FetchBody)) ∧
    (∀ (parsed : Except String RelayBody)
       (service : ChatRequest → Except String ChatCompletion) (cur p : String),
       promptFieldOf ((POST parsed service).1).body = some p →
       handleRelayData (promptFieldOf ((POST parsed service).1).body) cur = p) := by
  refine ⟨?_, ?_, ?_⟩
  · unfold onresult
    rw [processResults_eq]
  · unfold onresult
    rw [processResults_eq]
  · intro parsed service cur p hp
    rw [hp]
    have hne : p ≠ "" := POST_prompt_ne_empty parsed service p hp
    simp [handleRelayData, String.isEmpty_iff, hne]

/-- Witness for C5: a two-result event whose second result is final, with
resultIndex 1, appends exactly that transcript and issues one call; and the
callback installs the prompt of a concrete successful relay response. -/
theorem onresult_final_results_and_calls_witness :
    (onresult "job-interview"
      { resultIndex := 1
        results := [ { isFinal := true, transcript := "ignored" }
                   , { isFinal := true, transcript := "I led a team" } ] }
      "Hi. ").2 =
      [{ transcription := "I led a team", topic := "job-interview" }] ∧
    handleRelayData
      (promptFieldOf ((POST
        (.ok { transcription := some "I led a team", topic := some "job-interview" })
        (fun _ => .ok { choices := [{ message := some { content := some "Go on" } }] })).1).body)
      "old prompt" = "Go on" := by
  constructor
  · rw [(onresult_final_results_and_calls "job-interview" "Hi. "
      { resultIndex := 1
        results := [ { isFinal := true, transcript := "ignored" }
                   , { isFinal := true, transcript := "I led a team" } ] }).2.1]
    decide
  · exact (onresult_final_results_and_calls "job-interview" "" { resultIndex := 0, results := [] }).2.2
      (.ok { transcription := some "I led a team", topic := some "job-interview" })
      (fun _ => .ok { choices := [{ message := some { content := some "Go on" } }] })
      "old prompt" "Go on" (by decide)

/-- C6: stopping a recording triggers a download exactly when the collected
chunk list is non-empty; in that case the downloaded object is the
concatenation of all chunks in collection order, typed "video/webm", named
"recording.webm", and the object URL is revoked; and starting then
immediately stopping (zero chunks collected) triggers no download. -/
theorem stopRecording_download_iff_chunks (s : ClientState) :
    ((stopRecording s).download = none ↔ s.recordedChunks = []) ∧
    (s.recordedChunks ≠ [] →
      (stopRecording s).download =
        some (s.recordedChunks.flatten, "video/webm", "recording.webm") ∧
      (stopRecording s).objectUrlRevoked = true) ∧
    (∀ (avail : Bool) (ms : MediaStream), s.stream = some ms →
      (stopRecording (startRecording avail s)).download = none) := by
  refine ⟨?_, ?_, ?_⟩
  · unfold stopRecording
    by_cases h : s.recordedChunks = []
    · simp [h]
    · simp [h, List.length_pos.mpr h]
  · intro h
    unfold stopRecording
    simp [h, List.length_pos.mpr h]
  · intro avail ms hms
    unfold startRecording
    rw [hms]
    cases avail <;> simp [stopRecording]

/-- Witness for C6: with chunks [[1, 2], [3]] the download is the
concatenation [1, 2, 3] as recording.webm, and a start-then-stop session
with a one-track stream and no chunks triggers no download. -/
theorem stopRecording_download_iff_chunks_witness :
    (stopRecording { initialClientState with recordedChunks := [[1, 2], [3]] }).download =
      some ([1, 2, 3], "video/webm", "recording.webm") ∧
    (stopRecording (startRecording true
      (mediaAcquired initialClientState { tracks := [{ id := 0 }] }))).download = none := by
  constructor
  · have h := (stopRecording_download_iff_chunks
      { initialClientState with recordedChunks := [[1, 2], [3]] }).2.1 (by decide)
    simpa using h.1
  · exact (stopRecording_download_iff_chunks
      (mediaAcquired initialClientState { tracks := [{ id := 0 }] })).2.2
      true { tracks := [{ id := 0 }] } rfl

/-- C7: with an acquired stream, startRecording clears the transcription and
the chunk list, sets the recording flag, and sets the start-speaking prompt;
when the speech-recognition capability is absent, recognitionRef is left
untouched (no recognizer is started) and the prompt ends up as the
not-supported message while the recording flag is still set. -/
theorem startRecording_with_stream (avail : Bool) (s : ClientState)
    (ms : MediaStream) (h : s.stream = some ms) :
    (startRecording avail s).transcription = "" ∧
    (startRecording avail s).recordedChunks = [] ∧
    (startRecording avail s).isRecording = true ∧
    (avail = true →
      (startRecording avail s).currentPrompt = "Start speaking to receive AI prompts.") ∧
    (avail = false →
      (startRecording avail s).recognitionRef = s.recognitionRef ∧
      (startRecording avail s).currentPrompt =
        "Speech recognition not supported in this browser.") := by
  unfold startRecording
  rw [h]
  cases avail <;> simp

/-- Witness for C7: starting on a freshly acquired one-track stream in a
browser without speech recognition still records, starts no recognizer, and
shows the not-supported prompt. -/
theorem startRecording_with_stream_witness :
    (startRecording false (mediaAcquired initialClientState { tracks := [{ id := 0 }] })).isRecording = true ∧
    (startRecording false (mediaAcquired initialClientState { tracks := [{ id := 0 }] })).recognitionRef = none ∧
    (startRecording false (mediaAcquired initialClientState { tracks := [{ id := 0 }] })).currentPrompt =
      "Speech recognition not supported in this browser." := by
  refine ⟨(startRecording_with_stream false _ _ rfl).2.2.1, ?_, ?_⟩
  · have h := ((startRecording_with_stream false
      (mediaAcquired initialClientState { tracks := [{ id := 0 }] })
      { tracks := [{ id := 0 }] } rfl).2.2.2.2 rfl).1
    simpa using h
  · exact ((startRecording_with_stream false _ _ rfl).2.2.2.2 rfl).2

/-- C8: invoking startRecording without an acquired stream is a silent
no-op: the whole state (recording flag, prompt, transcription, chunks,
recorder, recognizer ref) is returned unchanged. -/
theorem startRecording_no_stream_noop (avail : Bool) (s : ClientState)
    (h : s.stream = none) : startRecording avail s = s := by
  unfold startRecording
  rw [h]

/-- Witness for C8: starting from the initial state, where no stream has
been acquired yet, leaves the state exactly as it was. -/
theorem startRecording_no_stream_noop_witness :
    startRecording true initialClientState = initialClientState :=
  startRecording_no_stream_noop true initialClientState rfl

end InterviewAI
